import Mathlib

/-!
Verification of the DualShock4 controller driver layer of this repository
(src/src/core/Controller.hpp) against its natural-language specification.

The driver defines a fixed-layout 32-byte HID output report (one report-id
byte plus a 31-byte payload), selects the report id at construction time
from the usage indicator of the descriptor, and on teardown stamps a reset
marker into the staging payload, attempts one final write, frees the
packet and closes the connection.

Machine bytes are modelled as `Nat` (all values written by the code are
small constants, so no overflow arises); the external hidapi handles are
modelled as identifiers, and the responses of the environment (result of
`hid_open`, success of `calloc`, outcome of the final write) are passed
as explicit parameters.  Side effects on the transport are recorded as an
explicit trace of `Effect`s.
-/

/-- Vendor id constant from Controller.hpp:9 (`#define ... 1356`).  Note the
constructor never compares any descriptor field against it. -/
def SONY_INTERACTIVE_ENTERTAINMENT_VENDOR_ID : Nat := 1356

/-- Product id constant from Controller.hpp:10 (`#define ... 2508`). -/
def DUALSHOCK_4_CONTROLLER_PRO_ID : Nat := 2508

/-- Modelled from the spec: the device descriptor supplied by the external
hidapi enumeration facility (spec §6), whose definition is not part of this
repository.  It provides a vendor id, a product id, a serial identifier and
a transport-usage indicator; per spec §4.2 the absence of a valid usage
indicator is a representable state of the indicator, which the constructor
(Controller.hpp:67) recognizes as the value `-1`, so the field is modelled
as an integer. -/
structure hid_device_info where
  vendor_id : Nat
  product_id : Nat
  serial_number : Nat
  usage : Int
deriving Repr, DecidableEq

/-- The 31-byte output payload, Controller.hpp:13-26 (`#pragma pack(1)`):
ten named single-byte fields followed by a 21-byte tail `padding[21]`
("Other stuff that we dont use in the project (eg. audio out, I2C
communication)").  Bytes are modelled as `Nat`; the tail as a list of
bytes of length 21. -/
structure dualshock4_hid_out_payload where
  flags : Nat
  reserved_unk : Nat
  Empty : Nat
  smallMotorPower : Nat
  largeMotorPower : Nat
  redLed : Nat
  greenLed : Nat
  blueLed : Nat
  ledFlashOnTime : Nat
  ledFlashOffTime : Nat
  padding : List Nat
deriving Repr, DecidableEq

/-- The full output report, Controller.hpp:30-33: one report-id byte
followed by the payload. -/
structure dualshock4_hid_out_packet where
  reportId : Nat
  payload : dualshock4_hid_out_payload
deriving Repr, DecidableEq

/-- The all-zero payload: the content of the payload of the packet right after
construction (calloc zero-fill at Controller.hpp:74 followed by the memset
at Controller.hpp:80). -/
def zeroPayload : dualshock4_hid_out_payload :=
  { flags := 0, reserved_unk := 0, Empty := 0, smallMotorPower := 0,
    largeMotorPower := 0, redLed := 0, greenLed := 0, blueLed := 0,
    ledFlashOnTime := 0, ledFlashOffTime := 0, padding := List.replicate 21 0 }

/-- Byte-serialization of the payload: the ten named bytes at their packed
offsets 0..9 followed by the 21-byte tail (`#pragma pack(1)`, so there is
no compiler padding). -/
def payloadBytes (p : dualshock4_hid_out_payload) : List Nat :=
  [p.flags, p.reserved_unk, p.Empty, p.smallMotorPower, p.largeMotorPower,
   p.redLed, p.greenLed, p.blueLed, p.ledFlashOnTime, p.ledFlashOffTime]
    ++ p.padding

/-- Byte-serialization of the full report: report id at offset 0, payload
at offsets 1..31. -/
def packetBytes (pkt : dualshock4_hid_out_packet) : List Nat :=
  pkt.reportId :: payloadBytes pkt.payload

/-- Size in bytes of a `dualshock4_hid_out_packet *` member on an LP64
platform: the destructor (Controller.hpp:86) passes
`sizeof(this->controllerOutPacket)` — the size of the POINTER, not of the
pointed-to struct — as the write length. -/
def ptrSize : Nat := 8

/-- Observable effects on the external hidapi transport and the allocator,
recorded in order. -/
inductive Effect where
  | openCall (vendor product serial : Nat)
  | sendCall (dev : Option Nat) (bytes : List Nat)
  | freeCall
  | closeCall (dev : Nat)
deriving Repr, DecidableEq

/-- The handle state of class DualShock4 (Controller.hpp:37-42): the open
device (a pointer, `none` = NULL), the `isUsb` byte, and the staging
output packet (held by value; the C++ object holds it behind the pointer
returned by `calloc`, whose validity is tracked by the construction
function below). -/
structure DualShock4 where
  dev : Option Nat
  isUsb : Nat
  controllerOutPacket : dualshock4_hid_out_packet
deriving Repr, DecidableEq

/-- Outcome of running the constructor body (Controller.hpp:45-81).
`abort*` are the three `std::abort()` paths; `nullDeref` marks the
undefined behaviour reached when `calloc` returns NULL and the code
dereferences the result without any check. -/
inductive CtorResult where
  | abortNullInfo
  | abortProductMismatch
  | abortOpenFailed
  | nullDeref
  | ok (h : DualShock4)
deriving Repr, DecidableEq

/-- True on the three `std::abort()` outcomes of the constructor. -/
def CtorResult.isAbort : CtorResult → Bool
  | .abortNullInfo => true
  | .abortProductMismatch => true
  | .abortOpenFailed => true
  | .nullDeref => false
  | .ok _ => false

/-- The handle produced by a successful constructor run on descriptor
`info` with `hid_open` returning device `d` (Controller.hpp:57-80):
`isUsb` is 0 exactly when `usage == -1`, the report id is `0x05` when
`isUsb == 1` and `0x11` otherwise, and the payload is zero-filled
(calloc plus the memset at line 80). -/
def constructedHandle (info : hid_device_info) (d : Nat) : DualShock4 :=
  let isUsb : Nat := if info.usage = -1 then 0 else 1
  { dev := some d, isUsb := isUsb,
    controllerOutPacket :=
      { reportId := if isUsb = 1 then 0x05 else 0x11, payload := zeroPayload } }

/-- The constructor `DualShock4::DualShock4(hid_device_info *)`
(Controller.hpp:45-81).  `openResult` is the answer of the environment to the
`hid_open` call (`none` = NULL); `callocOk` is whether `calloc` succeeds.
Returns the trace of transport effects together with the outcome.  The
checks, in source order: NULL descriptor → abort; product id ≠ 2508 →
abort (before any open call); `hid_open` NULL → abort; then the packet is
allocated and initialized with no check of the allocation result. -/
def DualShock4.construct (openDeviceInfo : Option hid_device_info)
    (openResult : Option Nat) (callocOk : Bool) :
    List Effect × CtorResult :=
  match openDeviceInfo with
  | none => ([], .abortNullInfo)
  | some info =>
    if info.product_id ≠ DUALSHOCK_4_CONTROLLER_PRO_ID then
      ([], .abortProductMismatch)
    else
      let tr := [Effect.openCall info.vendor_id info.product_id info.serial_number]
      match openResult with
      | none => (tr, .abortOpenFailed)
      | some d =>
        if callocOk then (tr, .ok (constructedHandle info d))
        else (tr, .nullDeref)

/-- Result of stamping the reset marker into the staging packet, as the
destructor does at Controller.hpp:85: `payload.reserved_unk = 0x01`.
No other payload field is written. -/
def DualShock4.teardownPacket (h : DualShock4) : dualshock4_hid_out_packet :=
  { h.controllerOutPacket with
      payload := { h.controllerOutPacket.payload with reserved_unk := 0x01 } }

/-- The byte sequence the destructor actually hands to
`hid_send_output_report` (Controller.hpp:86): the packet bytes truncated
to `sizeof(this->controllerOutPacket)` = `ptrSize` bytes, because the code
takes the size of the pointer member rather than of the struct. -/
def DualShock4.destructSendBytes (h : DualShock4) : List Nat :=
  (packetBytes h.teardownPacket).take ptrSize

/-- The destructor `DualShock4::~DualShock4()` (Controller.hpp:83-93) as a
trace of effects: stamp the reset marker, send (its result is discarded —
`sendOk`, the outcome chosen by the environment for the write, is never consulted),
free the packet, and close the device when it is non-NULL. -/
def DualShock4.destruct (h : DualShock4) (sendOk : Bool) : List Effect :=
  [Effect.sendCall h.dev h.destructSendBytes, Effect.freeCall]
    ++ (match h.dev with
        | some d => [Effect.closeCall d]
        | none => [])

/-- Applies a payload-field update to the staging packet of a handle. -/
def DualShock4.updatePayload (h : DualShock4)
    (f : dualshock4_hid_out_payload → dualshock4_hid_out_payload) : DualShock4 :=
  { h with controllerOutPacket :=
      { h.controllerOutPacket with payload := f h.controllerOutPacket.payload } }

/-- Modelled from the spec: flag bit selecting the rumble subsystem
(spec §3, §4.4).  The spec fixes neither bit positions nor values, only
that the three subsystem bits are distinct; bit 0 is chosen. -/
def rumbleFlagBit : Nat := 1

/-- Modelled from the spec: flag bit selecting the LED-color subsystem
(bit 1 chosen; see `rumbleFlagBit`). -/
def ledFlagBit : Nat := 2

/-- Modelled from the spec: flag bit selecting the LED-blink subsystem
(bit 2 chosen; see `rumbleFlagBit`). -/
def ledBlinkFlagBit : Nat := 4

/-- Modelled from the spec: `DualShock4::enableRumble` is declared at
Controller.hpp:96 but its body is not under src/; per spec §4.4 it sets
the rumble flag bit without changing the magnitudes or any other field. -/
def DualShock4.enableRumble (h : DualShock4) : DualShock4 :=
  h.updatePayload (fun p => { p with flags := p.flags ||| rumbleFlagBit })

/-- Modelled from the spec: `DualShock4::enableLED` is declared at
Controller.hpp:97 but its body is not under src/; per spec §4.4 it sets
the LED-color flag bit and nothing else. -/
def DualShock4.enableLED (h : DualShock4) : DualShock4 :=
  h.updatePayload (fun p => { p with flags := p.flags ||| ledFlagBit })

/-- Modelled from the spec: `DualShock4::enableLEDBlink` is declared at
Controller.hpp:98 but its body is not under src/; per spec §4.4 it sets
the LED-blink flag bit and nothing else. -/
def DualShock4.enableLEDBlink (h : DualShock4) : DualShock4 :=
  h.updatePayload (fun p => { p with flags := p.flags ||| ledBlinkFlagBit })

/-- Modelled from the spec: `DualShock4::setRumBle` is declared at
Controller.hpp:99 but its body is not under src/; per spec §4.4 it writes
the two rumble magnitudes and no flag bit and no other field. -/
def DualShock4.setRumBle (h : DualShock4)
    (smallRumbleLevel bigRumbleLevel : Nat) : DualShock4 :=
  h.updatePayload (fun p =>
    { p with smallMotorPower := smallRumbleLevel,
             largeMotorPower := bigRumbleLevel })

/-- Modelled from the spec: `DualShock4::setLEDColor` is declared at
Controller.hpp:100 but its body is not under src/; per spec §4.4 it writes
the three LED channel values and nothing else. -/
def DualShock4.setLEDColor (h : DualShock4) (r g b : Nat) : DualShock4 :=
  h.updatePayload (fun p => { p with redLed := r, greenLed := g, blueLed := b })

/-- Modelled from the spec: `DualShock4::setLEDOnPeriod` is declared at
Controller.hpp:101 but its body is not under src/; per spec §4.4 it writes
the blink on-duration and nothing else. -/
def DualShock4.setLEDOnPeriod (h : DualShock4) (period : Nat) : DualShock4 :=
  h.updatePayload (fun p => { p with ledFlashOnTime := period })

/-- Modelled from the spec: `DualShock4::setLEDOffPeriod` is declared at
Controller.hpp:102 but its body is not under src/; per spec §4.4 it writes
the blink off-duration and nothing else. -/
def DualShock4.setLEDOffPeriod (h : DualShock4) (period : Nat) : DualShock4 :=
  h.updatePayload (fun p => { p with ledFlashOffTime := period })

/-- One builder-mutator invocation, for quantifying over call sequences. -/
inductive BuilderOp where
  | enableRumble
  | enableLED
  | enableLEDBlink
  | setRumBle (s b : Nat)
  | setLEDColor (r g b : Nat)
  | setLEDOnPeriod (p : Nat)
  | setLEDOffPeriod (p : Nat)
deriving Repr, DecidableEq

/-- Runs one builder mutator on a handle. -/
def DualShock4.applyOp (h : DualShock4) : BuilderOp → DualShock4
  | .enableRumble => h.enableRumble
  | .enableLED => h.enableLED
  | .enableLEDBlink => h.enableLEDBlink
  | .setRumBle s b => h.setRumBle s b
  | .setLEDColor r g b => h.setLEDColor r g b
  | .setLEDOnPeriod p => h.setLEDOnPeriod p
  | .setLEDOffPeriod p => h.setLEDOffPeriod p

/-- Runs a sequence of builder mutators left to right. -/
def DualShock4.applyOps (h : DualShock4) (ops : List BuilderOp) : DualShock4 :=
  ops.foldl DualShock4.applyOp h

/-- The canonical reset payload of the spec: all subsystems off, all
rumble/LED fields zero, reset marker `reserved_unk = 0x01` set. -/
def canonicalResetPayload : dualshock4_hid_out_payload :=
  { zeroPayload with reserved_unk := 0x01 }

/-- A descriptor with matching ids and a valid (USB) usage indicator. -/
def usbInfo : hid_device_info :=
  { vendor_id := 1356, product_id := 2508, serial_number := 0, usage := 0 }

/-- A descriptor with matching ids whose usage indicator signals
"no usage" (wireless connectivity). -/
def btInfo : hid_device_info :=
  { vendor_id := 1356, product_id := 2508, serial_number := 0, usage := -1 }

/-- A descriptor whose vendor id is not 1356 but whose product id is 2508. -/
def vendorMismatchInfo : hid_device_info :=
  { vendor_id := 9999, product_id := 2508, serial_number := 0, usage := 0 }

/-- Successful construction forces a successful open, and the resulting
handle is exactly `constructedHandle`. -/
theorem construct_ok_elim {info : hid_device_info} {openResult : Option Nat}
    {callocOk : Bool} {tr : List Effect} {h : DualShock4}
    (hok : DualShock4.construct (some info) openResult callocOk
            = (tr, CtorResult.ok h)) :
    ∃ d, openResult = some d ∧ h = constructedHandle info d := by
  unfold DualShock4.construct at hok
  by_cases hp : info.product_id ≠ DUALSHOCK_4_CONTROLLER_PRO_ID
  · simp [hp] at hok
  · simp [hp] at hok
    cases openResult with
    | none => simp at hok
    | some d =>
      cases callocOk with
      | false => simp at hok
      | true =>
        simp at hok
        exact ⟨d, rfl, hok.2.symm⟩

/-- C1: for every device descriptor accepted at construction, a usage
indicator signalling "no usage" (the value -1) selects the
Bluetooth/wireless report id 0x11, and any other usage selects the USB
report id 0x05. -/
theorem reportId_selected_by_usage (info : hid_device_info)
    (openResult : Option Nat) (tr : List Effect) (h : DualShock4)
    (hok : DualShock4.construct (some info) openResult true
            = (tr, CtorResult.ok h)) :
    h.controllerOutPacket.reportId = if info.usage = -1 then 0x11 else 0x05 := by
  obtain ⟨d, -, rfl⟩ := construct_ok_elim hok
  by_cases hu : info.usage = -1 <;> simp [constructedHandle, hu]

/-- Witness for C1: a wireless descriptor (usage -1) accepted by the
constructor yields report id 0x11. -/
theorem reportId_selected_by_usage_witness :
    (constructedHandle btInfo 7).controllerOutPacket.reportId =
      if btInfo.usage = -1 then 0x11 else 0x05 :=
  reportId_selected_by_usage btInfo (some 7)
    [Effect.openCall 1356 2508 0] (constructedHandle btInfo 7) (by decide)

/-- C2 (code bug): the serialized report is 32 bytes, but the teardown
write hands the device only `ptrSize` = 8 bytes, because
Controller.hpp:86 passes `sizeof(this->controllerOutPacket)` — the size
of the pointer member — as the write length. -/
theorem teardown_write_length_is_ptr_size :
    (packetBytes (constructedHandle usbInfo 7).controllerOutPacket).length = 32
    ∧ (constructedHandle usbInfo 7).destruct true =
        [Effect.sendCall (some 7) ((constructedHandle usbInfo 7).destructSendBytes),
         Effect.freeCall, Effect.closeCall 7]
    ∧ ((constructedHandle usbInfo 7).destructSendBytes).length = ptrSize
    ∧ ((constructedHandle usbInfo 7).destructSendBytes).length ≠ 32 := by
  refine ⟨by decide, rfl, by decide, by decide⟩

/-- Counterexample to C3: on a handle whose rumble magnitudes were staged
(via the builder), the teardown payload is not the canonical reset state —
the destructor stamps only the reset marker and zeroes nothing. -/
theorem teardown_not_canonical_reset_cex :
    (((constructedHandle usbInfo 7).setRumBle 100 200).teardownPacket).payload
        ≠ canonicalResetPayload
    ∧ (((constructedHandle usbInfo 7).setRumBle 100 200).teardownPacket).payload.largeMotorPower
        = 200 := by
  decide

/-- C3 as amended: on teardown the reset marker (reserved_unk = 0x01) is
stamped into the staging payload with every other payload field left as
staged, exactly one final send is attempted, and then the connection is
released; on a handle never mutated after construction the staged teardown
payload equals the canonical reset state. -/
theorem teardown_marks_reset_and_closes (h : DualShock4) (d : Nat)
    (sendOk : Bool) (hdev : h.dev = some d) :
    h.teardownPacket.payload =
      { h.controllerOutPacket.payload with reserved_unk := 0x01 }
    ∧ h.destruct sendOk =
        [Effect.sendCall (some d) h.destructSendBytes, Effect.freeCall,
         Effect.closeCall d]
    ∧ (∀ info d2,
        (constructedHandle info d2).teardownPacket.payload = canonicalResetPayload) := by
  refine ⟨rfl, ?_, fun info d2 => rfl⟩
  simp [DualShock4.destruct, hdev]

/-- Witness for C3 as amended, at a freshly constructed USB handle. -/
theorem teardown_marks_reset_and_closes_witness :
    (constructedHandle usbInfo 7).teardownPacket.payload =
      { (constructedHandle usbInfo 7).controllerOutPacket.payload with
          reserved_unk := 0x01 }
    ∧ (constructedHandle usbInfo 7).destruct true =
        [Effect.sendCall (some 7) (constructedHandle usbInfo 7).destructSendBytes,
         Effect.freeCall, Effect.closeCall 7]
    ∧ (constructedHandle btInfo 9).teardownPacket.payload = canonicalResetPayload :=
  ⟨(teardown_marks_reset_and_closes (constructedHandle usbInfo 7) 7 true rfl).1,
   (teardown_marks_reset_and_closes (constructedHandle usbInfo 7) 7 true rfl).2.1,
   (teardown_marks_reset_and_closes (constructedHandle usbInfo 7) 7 true rfl).2.2 btInfo 9⟩

/-- Counterexample to C4: a descriptor whose vendor id is 9999 ≠ 1356 but
whose product id is 2508 is accepted — construction completes without any
abort, because the constructor never validates the vendor id. -/
theorem vendor_mismatch_accepted_cex :
    vendorMismatchInfo.vendor_id ≠ SONY_INTERACTIVE_ENTERTAINMENT_VENDOR_ID
    ∧ (DualShock4.construct (some vendorMismatchInfo) (some 7) true).2 =
        CtorResult.ok (constructedHandle vendorMismatchInfo 7)
    ∧ ((DualShock4.construct (some vendorMismatchInfo) (some 7) true).2).isAbort
        = false := by
  decide

/-- C4 as amended: construction aborts exactly when the descriptor is
null, or its product id differs from 2508, or the open yields no
connection; the vendor id plays no role, and for every descriptor with
product id 2508 whose open succeeds construction completes. -/
theorem construction_abort_characterization (info : hid_device_info)
    (openResult : Option Nat) (d : Nat) :
    (((DualShock4.construct (some info) openResult true).2).isAbort = true ↔
        (info.product_id ≠ DUALSHOCK_4_CONTROLLER_PRO_ID ∨ openResult = none))
    ∧ ((DualShock4.construct none openResult true).2).isAbort = true
    ∧ (DualShock4.construct (some info) (some d) true).2 =
        (if info.product_id = DUALSHOCK_4_CONTROLLER_PRO_ID
         then CtorResult.ok (constructedHandle info d)
         else CtorResult.abortProductMismatch) := by
  refine ⟨?_, rfl, ?_⟩
  · by_cases hp : info.product_id = DUALSHOCK_4_CONTROLLER_PRO_ID
    · cases openResult <;> simp [DualShock4.construct, hp, CtorResult.isAbort]
    · simp [DualShock4.construct, hp, CtorResult.isAbort]
  · by_cases hp : info.product_id = DUALSHOCK_4_CONTROLLER_PRO_ID <;>
      simp [DualShock4.construct, hp]

/-- Each builder mutator leaves the 21-byte reserved tail untouched. -/
theorem applyOp_padding (h : DualShock4) (op : BuilderOp) :
    ((h.applyOp op).controllerOutPacket).payload.padding
      = h.controllerOutPacket.payload.padding := by
  cases op <;> rfl

/-- Any sequence of builder mutators leaves the reserved tail untouched. -/
theorem applyOps_padding (ops : List BuilderOp) (h : DualShock4) :
    ((h.applyOps ops).controllerOutPacket).payload.padding
      = h.controllerOutPacket.payload.padding := by
  induction ops generalizing h with
  | nil => rfl
  | cons op rest ih =>
      have hstep : h.applyOps (op :: rest) = (h.applyOp op).applyOps rest := rfl
      rw [hstep, ih, applyOp_padding]

/-- C5: the reserved tail (the 21 `padding` bytes, the fields the spec
calls `reserved`: audio/auxiliary-bus bytes not modeled) is zeroed at
construction and stays all-zero through every sequence of builder
mutations and through teardown, which stamps only the reset marker. -/
theorem reserved_padding_stays_zero (info : hid_device_info) (d : Nat)
    (ops : List BuilderOp) :
    (((constructedHandle info d).applyOps ops).controllerOutPacket).payload.padding
        = List.replicate 21 0
    ∧ (((constructedHandle info d).applyOps ops).teardownPacket).payload.padding
        = List.replicate 21 0 := by
  have hb := applyOps_padding ops (constructedHandle info d)
  have ht : (((constructedHandle info d).applyOps ops).teardownPacket).payload.padding
      = (((constructedHandle info d).applyOps ops).controllerOutPacket).payload.padding := rfl
  exact ⟨hb.trans rfl, ht.trans (hb.trans rfl)⟩

/-- C6: a descriptor whose product id differs from 2508 is rejected
fatally with an empty transport trace — no open call is ever made. -/
theorem product_mismatch_rejected_before_open (info : hid_device_info)
    (openResult : Option Nat) (callocOk : Bool)
    (hp : info.product_id ≠ DUALSHOCK_4_CONTROLLER_PRO_ID) :
    DualShock4.construct (some info) openResult callocOk
      = ([], CtorResult.abortProductMismatch) := by
  simp [DualShock4.construct, hp]

/-- Witness for C6 at product id 9. -/
theorem product_mismatch_rejected_before_open_witness :
    DualShock4.construct
      (some { vendor_id := 1356, product_id := 9, serial_number := 0, usage := 0 })
      (some 7) true
      = ([], CtorResult.abortProductMismatch) :=
  product_mismatch_rejected_before_open _ (some 7) true (by decide)

/-- C7: the teardown trace never depends on the outcome of the final
write (the code discards it), and it always contains the close of the
device, so a teardown-time write failure never prevents the close. -/
theorem teardown_always_closes (h : DualShock4) (d : Nat)
    (sendOk sendOk2 : Bool) (hdev : h.dev = some d) :
    h.destruct sendOk = h.destruct sendOk2
    ∧ Effect.closeCall d ∈ h.destruct sendOk := by
  refine ⟨rfl, ?_⟩
  simp [DualShock4.destruct, hdev]

/-- Witness for C7 at a freshly constructed USB handle. -/
theorem teardown_always_closes_witness :
    (constructedHandle usbInfo 7).destruct true
        = (constructedHandle usbInfo 7).destruct false
    ∧ Effect.closeCall 7 ∈ (constructedHandle usbInfo 7).destruct true :=
  teardown_always_closes (constructedHandle usbInfo 7) 7 true false rfl

/-- C8: every successful construction leaves the entire 31-byte payload
zero, and the zero payload serializes to 31 zero bytes (all subsystems
off). -/
theorem construction_zeroes_payload (openDeviceInfo : Option hid_device_info)
    (openResult : Option Nat) (tr : List Effect) (h : DualShock4)
    (hok : DualShock4.construct openDeviceInfo openResult true
            = (tr, CtorResult.ok h)) :
    h.controllerOutPacket.payload = zeroPayload
    ∧ payloadBytes zeroPayload = List.replicate 31 0 := by
  refine ⟨?_, by decide⟩
  cases openDeviceInfo with
  | none => simp [DualShock4.construct] at hok
  | some info =>
      obtain ⟨d, -, rfl⟩ := construct_ok_elim hok
      rfl

/-- Witness for C8 at the USB descriptor. -/
theorem construction_zeroes_payload_witness :
    (constructedHandle usbInfo 7).controllerOutPacket.payload = zeroPayload
    ∧ payloadBytes zeroPayload = List.replicate 31 0 :=
  construction_zeroes_payload (some usbInfo) (some 7)
    [Effect.openCall 1356 2508 0] (constructedHandle usbInfo 7) (by decide)

/-- C9: every builder mutator writes only its own payload field(s) — the
enable operations only their flag bit — leaving all other fields
unchanged; setting rumble magnitudes leaves the rumble flag bit unset on
a fresh handle, and enabling rumble without setting magnitudes leaves the
magnitudes at zero. -/
theorem builder_mutators_frame (h : DualShock4) (s b r g bl p q : Nat) :
    ((h.setRumBle s b).controllerOutPacket.payload =
        { h.controllerOutPacket.payload with
            smallMotorPower := s, largeMotorPower := b })
    ∧ ((h.setLEDColor r g bl).controllerOutPacket.payload =
        { h.controllerOutPacket.payload with
            redLed := r, greenLed := g, blueLed := bl })
    ∧ ((h.setLEDOnPeriod p).controllerOutPacket.payload =
        { h.controllerOutPacket.payload with ledFlashOnTime := p })
    ∧ ((h.setLEDOffPeriod q).controllerOutPacket.payload =
        { h.controllerOutPacket.payload with ledFlashOffTime := q })
    ∧ (h.enableRumble.controllerOutPacket.payload =
        { h.controllerOutPacket.payload with
            flags := h.controllerOutPacket.payload.flags ||| rumbleFlagBit })
    ∧ (h.enableLED.controllerOutPacket.payload =
        { h.controllerOutPacket.payload with
            flags := h.controllerOutPacket.payload.flags ||| ledFlagBit })
    ∧ (h.enableLEDBlink.controllerOutPacket.payload =
        { h.controllerOutPacket.payload with
            flags := h.controllerOutPacket.payload.flags ||| ledBlinkFlagBit })
    ∧ ((h.setRumBle s b).controllerOutPacket.payload.flags =
        h.controllerOutPacket.payload.flags)
    ∧ (((constructedHandle usbInfo 7).setRumBle s b).controllerOutPacket.payload.flags.testBit 0
        = false)
    ∧ ((constructedHandle usbInfo 7).enableRumble.controllerOutPacket.payload.smallMotorPower = 0
        ∧ (constructedHandle usbInfo 7).enableRumble.controllerOutPacket.payload.largeMotorPower = 0) := by
  refine ⟨rfl, rfl, rfl, rfl, rfl, rfl, rfl, rfl, ?_, rfl, rfl⟩
  show Nat.testBit 0 0 = false
  decide

/-- C10: once the identity checks and the open have passed, a failed
allocation flows unchecked into the packet initialization (undefined
behaviour `nullDeref`) — no path aborts on or recovers from it — and the
constructor yields a valid handle exactly when the allocation succeeds. -/
theorem alloc_result_unchecked (info : hid_device_info) (d : Nat)
    (hp : info.product_id = DUALSHOCK_4_CONTROLLER_PRO_ID) :
    (DualShock4.construct (some info) (some d) false).2 = CtorResult.nullDeref
    ∧ (DualShock4.construct (some info) (some d) true).2 =
        CtorResult.ok (constructedHandle info d)
    ∧ (∀ callocOk, ((DualShock4.construct (some info) (some d) callocOk).2
          = CtorResult.ok (constructedHandle info d)) ↔ callocOk = true) := by
  refine ⟨by simp [DualShock4.construct, hp], by simp [DualShock4.construct, hp], ?_⟩
  intro callocOk
  cases callocOk <;> simp [DualShock4.construct, hp]

/-- Witness for C10 at the USB descriptor. -/
theorem alloc_result_unchecked_witness :
    (DualShock4.construct (some usbInfo) (some 7) false).2 = CtorResult.nullDeref
    ∧ (DualShock4.construct (some usbInfo) (some 7) true).2 =
        CtorResult.ok (constructedHandle usbInfo 7) :=
  ⟨(alloc_result_unchecked usbInfo 7 (by decide)).1,
   (alloc_result_unchecked usbInfo 7 (by decide)).2.1⟩
